import Mathlib

/-!
Verification development for the IntentUI core: the V2 UI decision engine
(`src/lib/v2/engine.ts`, here `assessIntent` and its helpers) and the density
state tracker (`DensityContext`, here `processInput`, `handleManualOverride`,
`recordSuccess`). Text is modelled as `List Char`; JavaScript
`toLowerCase().trim()` becomes per-character lowering plus whitespace trimming,
`String.prototype.includes` becomes list-infix testing, and the numeric
confidence score is an exact rational. Reasoning strings are modelled by an
inductive type carrying each template's numeric or density parameters,
abstracting only the decimal formatting of the interpolated values.
-/

/-- UI density levels, from `src/lib/v2/types.ts` (`UIDensity`). -/
inductive UIDensity where
  | MINIMAL
  | STANDARD
  | EXPANDED
deriving DecidableEq, Repr

/-- Urgency levels, from `src/lib/v2/types.ts` (`UrgencyLevel`). -/
inductive UrgencyLevel where
  | LOW
  | NORMAL
  | HIGH
deriving DecidableEq, Repr

/-- Confidence thresholds record, from `src/lib/v2/types.ts`. -/
structure ConfidenceThresholds where
  minimal : ℚ
  expanded : ℚ
deriving DecidableEq, Repr

/-- Constant `CONFIDENCE_THRESHOLDS` from `src/lib/v2/types.ts`: minimal 0.8, expanded 0.75. -/
def CONFIDENCE_THRESHOLDS : ConfidenceThresholds :=
  { minimal := 0.8, expanded := 0.75 }

/-- The reasoning strings produced by the engine and the tracker, one
constructor per template, carrying the interpolated numeric or density
parameters (decimal formatting abstracted). -/
inductive Reasoning where
  | reflectiveGuidance
  | belowThreshold (confidence : ℚ)
  | highUrgency
  | confidentAction (confidence : ℚ)
  | standardDefault
  | manualOverrideActive (preferred : UIDensity)
  | userOverride
  | initial
deriving DecidableEq, Repr

/-- Structure `UserConfidenceProfile` from `src/lib/v2/types.ts`. -/
structure UserConfidenceProfile where
  interactionsThisSession : ℕ
  successfulActions : ℕ
  backspaceCount : ℕ
  lastIntentChanged : Bool
deriving DecidableEq, Repr

/-- Structure `IntentResult` from `src/lib/v2/types.ts`. The `type` field is a plain
string in the source, and stays one here. -/
structure IntentResult where
  type : String
  description : String
  confidence : ℚ
  urgency : UrgencyLevel
  density : UIDensity
  reasoning : Reasoning
deriving DecidableEq, Repr

/-- Structure `UIContext` from `src/lib/v2/types.ts`. -/
structure UIContext where
  currentDensity : UIDensity
  userProfile : UserConfidenceProfile
  history : List IntentResult
deriving DecidableEq, Repr

/-- Character-list matching at the head: `pat` is an initial segment of `text`. -/
def matchesAt : List Char → List Char → Bool
  | [], _ => true
  | _ :: _, [] => false
  | p :: ps, t :: ts => p == t && matchesAt ps ts

/-- JavaScript `String.prototype.includes`: `pat` occurs contiguously in `text`. -/
def includes (text pat : List Char) : Bool :=
  match text with
  | [] => pat.isEmpty
  | _ :: rest => matchesAt pat text || includes rest pat

/-- Model of `SIGNALS.some(s => text.includes(s))`, the signal-matching idiom of the engine. -/
def matchesAny (signals : List String) (text : List Char) : Bool :=
  signals.any (fun s => includes text s.toList)

/-- Whitespace trimming at both ends, modelling `String.prototype.trim`. -/
def trimChars (cs : List Char) : List Char :=
  ((cs.dropWhile Char.isWhitespace).reverse.dropWhile Char.isWhitespace).reverse

/-- Model of `input.toLowerCase().trim()`, the normalization at the top of `assessIntent`. -/
def normalizeInput (input : String) : List Char :=
  trimChars (input.toList.map Char.toLower)

/-- List `UNCERTAINTY_SIGNALS` from `src/lib/v2/engine.ts`. -/
def UNCERTAINTY_SIGNALS : List String :=
  ["think", "maybe", "probably", "not sure", "guess", "ish",
   "forgot", "don't remember", "unsure", "might"]

/-- List `REFLECTIVE_SIGNALS` from `src/lib/v2/engine.ts`. -/
def REFLECTIVE_SIGNALS : List String :=
  ["why", "help", "understand", "insight", "tips", "suggest",
   "how to", "what should", "broke", "struggling"]

/-- List `URGENCY_HIGH_SIGNALS` from `src/lib/v2/engine.ts`. -/
def URGENCY_HIGH_SIGNALS : List String :=
  ["now", "asap", "immediately", "urgent", "emergency", "fast", "quick"]

/-- List `ANALYTICAL_SIGNALS` from `src/lib/v2/engine.ts`. -/
def ANALYTICAL_SIGNALS : List String :=
  ["show", "graph", "chart", "compare", "analyze", "list", "history", "trend"]

/-- List `ACTION_SIGNALS` from `src/lib/intent-classifier.ts` (the V1 classifier):
the only configured action-keyword set anywhere in the repository. The V2
engine under verification has no action signal set. -/
def ACTION_SIGNALS : List String :=
  ["add", "create", "save", "delete", "remove", "export", "share", "log", "record"]

/-- Function `detectIntentType` from `src/lib/v2/engine.ts`: reflective signals first,
then analytical signals, otherwise the default `"ACTION"`. -/
def detectIntentType (text : List Char) : String :=
  if matchesAny REFLECTIVE_SIGNALS text then "REFLECTIVE"
  else if matchesAny ANALYTICAL_SIGNALS text then "ANALYTICAL"
  else "ACTION"

/-- Function `detectUrgency` from `src/lib/v2/engine.ts`. -/
def detectUrgency (text : List Char) : UrgencyLevel :=
  if includes text ['!'] then .HIGH
  else if matchesAny URGENCY_HIGH_SIGNALS text then .HIGH
  else .NORMAL

/-- JavaScript `Math.max` on exact rationals. -/
def rmax (a b : ℚ) : ℚ := if a ≤ b then b else a

/-- JavaScript `Math.min` on exact rationals. -/
def rmin (a b : ℚ) : ℚ := if a ≤ b then a else b

/-- Function `computeConfidence` from `src/lib/v2/engine.ts`: start at 1.0, apply
linguistic and behavioral penalties and the digit boost, clamp to [0,1]. -/
def computeConfidence (text : List Char) (context : UIContext) : ℚ :=
  let score : ℚ := 1.0
  let score := if matchesAny UNCERTAINTY_SIGNALS text then score - 0.4 else score
  let score := if matchesAny REFLECTIVE_SIGNALS text then score - 0.2 else score
  let score := if context.userProfile.backspaceCount > 5 then score - 0.1 else score
  let score := if context.userProfile.lastIntentChanged then score - 0.1 else score
  let score := if text.any Char.isDigit then score + 0.1 else score
  rmin (rmax score 0) 1

/-- A density decision paired with its reasoning, the return shape of `resolveDensity`. -/
structure DensityDecision where
  density : UIDensity
  reasoning : Reasoning
deriving DecidableEq, Repr

/-- Function `resolveDensity` from `src/lib/v2/engine.ts`: the ordered rule cascade.
The context parameter is accepted, as in the source, but never read. -/
def resolveDensity (type : String) (confidence : ℚ) (urgency : UrgencyLevel)
    (_context : UIContext) : DensityDecision :=
  if type = "REFLECTIVE" then
    { density := .EXPANDED, reasoning := .reflectiveGuidance }
  else if confidence < CONFIDENCE_THRESHOLDS.expanded then
    { density := .EXPANDED, reasoning := .belowThreshold confidence }
  else if urgency = .HIGH then
    { density := .MINIMAL, reasoning := .highUrgency }
  else if type = "ACTION" ∧ confidence ≥ CONFIDENCE_THRESHOLDS.minimal then
    { density := .MINIMAL, reasoning := .confidentAction confidence }
  else
    { density := .STANDARD, reasoning := .standardDefault }

/-- Function `assessIntent` from `src/lib/v2/engine.ts`: the V2 UI decision engine. -/
def assessIntent (input : String) (context : UIContext) : IntentResult :=
  let text := normalizeInput input
  let intentType := detectIntentType text
  let urgency := detectUrgency text
  let confidence := computeConfidence text context
  let d := resolveDensity intentType confidence urgency context
  { type := intentType, description := input, confidence := confidence,
    urgency := urgency, density := d.density, reasoning := d.reasoning }


/-- The density tracker state held by `DensityProvider` in `DensityContext`:
current density, its reasoning, the last classification result, the user
confidence profile, and the optional manual override. -/
structure TrackerState where
  density : UIDensity
  reasoning : Reasoning
  lastIntent : Option IntentResult
  userProfile : UserConfidenceProfile
  manualOverride : Option UIDensity
deriving DecidableEq, Repr

/-- Constant `INITIAL_PROFILE` from `DensityContext`. -/
def INITIAL_PROFILE : UserConfidenceProfile :=
  { interactionsThisSession := 0, successfulActions := 0,
    backspaceCount := 0, lastIntentChanged := false }

/-- The initial provider state: density STANDARD, reasoning "Initial state",
no last intent, initial profile, no override. -/
def initialState : TrackerState :=
  { density := .STANDARD, reasoning := .initial, lastIntent := none,
    userProfile := INITIAL_PROFILE, manualOverride := none }

/-- The profile update at the top of `processInput`: only the interaction
count is incremented. -/
def bumpProfile (p : UserConfidenceProfile) : UserConfidenceProfile :=
  { p with interactionsThisSession := p.interactionsThisSession + 1 }

/-- Model of `lastIntent ? [lastIntent] : []`, the simplified history passed to the engine. -/
def historyOf : Option IntentResult → List IntentResult
  | some r => [r]
  | none => []

/-- The `UIContext` value built inside `processInput`: current density, the
bumped profile, and the one-element history from the last intent. -/
def contextFor (s : TrackerState) : UIContext :=
  { currentDensity := s.density, userProfile := bumpProfile s.userProfile,
    history := historyOf s.lastIntent }

/-- Function `processInput` from `DensityContext`: bump the profile, run the engine,
decay the override on an intent-category change, then either keep the
override's density or adopt the engine's, and store the result as last intent. -/
def processInput (text : String) (s : TrackerState) : TrackerState :=
  let newProfile := bumpProfile s.userProfile
  let result := assessIntent text (contextFor s)
  let activeOverride : Option UIDensity :=
    match s.manualOverride, s.lastIntent with
    | some d, some li => if result.type = li.type then some d else none
    | some d, none => some d
    | none, _ => none
  match activeOverride with
  | some d =>
      { density := d, reasoning := .manualOverrideActive d,
        lastIntent := some result, userProfile := newProfile,
        manualOverride := some d }
  | none =>
      { density := result.density, reasoning := result.reasoning,
        lastIntent := some result, userProfile := newProfile,
        manualOverride := none }

/-- Function `handleManualOverride` from `DensityContext`, exposed to consumers as the
`setManualOverride` action. -/
def handleManualOverride (newDensity : UIDensity) (s : TrackerState) : TrackerState :=
  { s with
      manualOverride := some newDensity
      density := newDensity
      reasoning := .userOverride }

/-- Function `recordSuccess` from `DensityContext`: bump the success count and clear
any active override. Density and reasoning are left untouched. -/
def recordSuccess (s : TrackerState) : TrackerState :=
  { s with
      userProfile :=
        { s.userProfile with successfulActions := s.userProfile.successfulActions + 1 }
      manualOverride := none }

/-- One externally callable tracker operation. -/
inductive TrackerOp where
  | processText (text : String)
  | overrideWith (d : UIDensity)
  | success
deriving DecidableEq, Repr

/-- Apply one tracker operation to a state. -/
def applyOp (s : TrackerState) : TrackerOp → TrackerState
  | .processText t => processInput t s
  | .overrideWith d => handleManualOverride d s
  | .success => recordSuccess s

/-- Run a sequence of tracker operations from a state. -/
def runOps (s : TrackerState) (ops : List TrackerOp) : TrackerState :=
  ops.foldl applyOp s

/-! Helper lemmas shared by the claim theorems below. -/

/-- Clamping from below: the clamped score is nonnegative. -/
lemma clamp_nonneg (s : ℚ) : 0 ≤ rmin (rmax s 0) 1 := by
  unfold rmin rmax
  split_ifs <;> linarith

/-- Clamping from above: the clamped score is at most one. -/
lemma clamp_le_one (s : ℚ) : rmin (rmax s 0) 1 ≤ 1 := by
  unfold rmin
  split_ifs <;> linarith

/-- The clamp leaves a value already inside the unit interval unchanged. -/
lemma clamp_of_mem (s : ℚ) (h0 : 0 ≤ s) (h1 : s ≤ 1) : rmin (rmax s 0) 1 = s := by
  unfold rmin rmax
  split_ifs <;> linarith

/-- The confidence score only reads the profile's hesitation counter and
intent-changed flag out of the context. -/
lemma computeConfidence_profile_congr (text : List Char) (c1 c2 : UIContext)
    (h1 : c1.userProfile.backspaceCount = c2.userProfile.backspaceCount)
    (h2 : c1.userProfile.lastIntentChanged = c2.userProfile.lastIntentChanged) :
    computeConfidence text c1 = computeConfidence text c2 := by
  unfold computeConfidence
  rw [h1, h2]

/-- The density cascade never reads its context parameter. -/
lemma resolveDensity_context_free (ty : String) (conf : ℚ) (u : UrgencyLevel)
    (c1 c2 : UIContext) : resolveDensity ty conf u c1 = resolveDensity ty conf u c2 := rfl

/-- The whole engine only reads the profile's hesitation counter and
intent-changed flag out of the context. -/
lemma assessIntent_profile_congr (input : String) (c1 c2 : UIContext)
    (h1 : c1.userProfile.backspaceCount = c2.userProfile.backspaceCount)
    (h2 : c1.userProfile.lastIntentChanged = c2.userProfile.lastIntentChanged) :
    assessIntent input c1 = assessIntent input c2 := by
  simp only [assessIntent]
  rw [computeConfidence_profile_congr (normalizeInput input) c1 c2 h1 h2]
  rfl

/-- Function `processInput` installs the bumped profile, whatever branch it takes. -/
lemma processInput_userProfile (t : String) (s : TrackerState) :
    (processInput t s).userProfile = bumpProfile s.userProfile := by
  rcases s with ⟨den, re, li, p, mo⟩
  rcases mo with _ | d <;> rcases li with _ | li <;>
    simp [processInput] <;> split <;> simp

/-- Function `processInput` stores the engine's result as the last intent. -/
lemma processInput_lastIntent (t : String) (s : TrackerState) :
    (processInput t s).lastIntent = some (assessIntent t (contextFor s)) := by
  rcases s with ⟨den, re, li, p, mo⟩
  rcases mo with _ | d <;> rcases li with _ | li <;>
    simp [processInput] <;> split <;> simp

/-- With no active override, `processInput` adopts the engine's density and
reasoning. -/
lemma processInput_of_no_override (t : String) (s : TrackerState)
    (h : s.manualOverride = none) :
    (processInput t s).manualOverride = none ∧
    (processInput t s).density = (assessIntent t (contextFor s)).density ∧
    (processInput t s).reasoning = (assessIntent t (contextFor s)).reasoning := by
  rcases s with ⟨den, re, li, p, mo⟩
  cases mo with
  | none => rcases li with _ | li <;> simp [processInput]
  | some d => simp at h

/-- After `processInput`, the visible density is the surviving override if any,
and the engine's density otherwise. -/
lemma processInput_density_getD (t : String) (s : TrackerState) :
    (processInput t s).density =
      (processInput t s).manualOverride.getD (assessIntent t (contextFor s)).density := by
  rcases s with ⟨den, re, li, p, mo⟩
  rcases mo with _ | d <;> rcases li with _ | li <;>
    simp [processInput] <;> split <;> simp

/-- After `processInput`, the reasoning matches the visible density: the
override template when an override survives, the engine's reasoning otherwise. -/
lemma processInput_reasoning_getD (t : String) (s : TrackerState) :
    (processInput t s).reasoning =
      ((processInput t s).manualOverride.map Reasoning.manualOverrideActive).getD
        (assessIntent t (contextFor s)).reasoning := by
  rcases s with ⟨den, re, li, p, mo⟩
  rcases mo with _ | d <;> rcases li with _ | li <;>
    simp [processInput] <;> split <;> simp

/-! The claim theorems. -/

/-- Claim C8: for every input text and every profile, the confidence score
returned by the classifier lies in the closed interval [0,1]. -/
theorem confidence_within_unit_interval (input : String) (context : UIContext) :
    0 ≤ (assessIntent input context).confidence ∧
    (assessIntent input context).confidence ≤ 1 := by
  have h : (assessIntent input context).confidence
      = computeConfidence (normalizeInput input) context := rfl
  rw [h]
  unfold computeConfidence
  exact ⟨clamp_nonneg _, clamp_le_one _⟩

/-- Claim C10: `processInput` changes exactly one field of the profile — the
interaction count goes up by one and the other three fields are unchanged. -/
theorem processInput_profile_frame (t : String) (s : TrackerState) :
    (processInput t s).userProfile.interactionsThisSession
        = s.userProfile.interactionsThisSession + 1 ∧
    (processInput t s).userProfile.successfulActions = s.userProfile.successfulActions ∧
    (processInput t s).userProfile.backspaceCount = s.userProfile.backspaceCount ∧
    (processInput t s).userProfile.lastIntentChanged = s.userProfile.lastIntentChanged := by
  rw [processInput_userProfile]
  exact ⟨rfl, rfl, rfl, rfl⟩

/-- Each tracker operation leaves the intent-changed flag untouched. -/
lemma applyOp_lastIntentChanged (s : TrackerState) (op : TrackerOp) :
    (applyOp s op).userProfile.lastIntentChanged = s.userProfile.lastIntentChanged := by
  cases op with
  | processText t =>
      show (processInput t s).userProfile.lastIntentChanged = _
      rw [processInput_userProfile]
      rfl
  | overrideWith d => rfl
  | success => rfl

/-- Claim C9: in every tracker state reachable from the initial session state
by `processInput` / `setManualOverride` / `recordSuccess` calls, the profile's
intent-changed flag is false, so the engine's 0.1 intent-changed penalty can
never fire for a tracker-driven classification. -/
theorem reachable_lastIntentChanged_false (ops : List TrackerOp) :
    (runOps initialState ops).userProfile.lastIntentChanged = false := by
  have key : ∀ (l : List TrackerOp) (s : TrackerState),
      (runOps s l).userProfile.lastIntentChanged = s.userProfile.lastIntentChanged := by
    intro l
    induction l with
    | nil => intro s; rfl
    | cons op rest ih =>
        intro s
        have h1 : runOps s (op :: rest) = runOps (applyOp s op) rest := rfl
        rw [h1, ih, applyOp_lastIntentChanged]
  rw [key ops initialState]
  rfl

/-- Claim C2 (amended): after `processInput` the visible density is the
surviving override if any and the engine's fresh density otherwise; manual
override sets density and override together; `recordSuccess` clears the
override but leaves the density untouched, so it can remain the former
override value until the next input. -/
theorem visible_density_policy (s : TrackerState) (t : String) (d : UIDensity) :
    (processInput t s).density
      = ((processInput t s).manualOverride.getD (assessIntent t (contextFor s)).density) ∧
    (handleManualOverride d s).density = d ∧
    (handleManualOverride d s).manualOverride = some d ∧
    (recordSuccess s).manualOverride = none ∧
    (recordSuccess s).density = s.density :=
  ⟨processInput_density_getD t s, rfl, rfl, rfl, rfl⟩

/-- Claim C2 counterexample: process "hi" (engine density MINIMAL), override to
EXPANDED, then record a success. The override is cleared, yet the visible
density stays EXPANDED while the engine's density for the most recent input is
MINIMAL — a stale value, violating the claimed invariant. -/
theorem stale_density_after_recordSuccess :
    (recordSuccess (handleManualOverride .EXPANDED (processInput "hi" initialState))).manualOverride
        = none ∧
    ((recordSuccess (handleManualOverride .EXPANDED (processInput "hi" initialState))).lastIntent.map
        IntentResult.density) = some UIDensity.MINIMAL ∧
    (recordSuccess (handleManualOverride .EXPANDED (processInput "hi" initialState))).density
        = .EXPANDED := by
  norm_num +decide [recordSuccess, handleManualOverride, processInput, contextFor, bumpProfile,
    historyOf, initialState, INITIAL_PROFILE, assessIntent, detectIntentType, detectUrgency,
    computeConfidence, resolveDensity, rmin, rmax, CONFIDENCE_THRESHOLDS]

/-- Claim C3: from any state with an active override, `recordSuccess` clears
the override and increments the success count, and the next `processInput`
adopts the engine's density and reasoning with no override influence. -/
theorem recordSuccess_then_fresh_processInput (s : TrackerState) (d : UIDensity)
    (h : s.manualOverride = some d) :
    (recordSuccess s).manualOverride = none ∧
    (recordSuccess s).userProfile.successfulActions = s.userProfile.successfulActions + 1 ∧
    ∀ t, (processInput t (recordSuccess s)).density
            = (assessIntent t (contextFor (recordSuccess s))).density ∧
         (processInput t (recordSuccess s)).reasoning
            = (assessIntent t (contextFor (recordSuccess s))).reasoning := by
  refine ⟨rfl, rfl, fun t => ?_⟩
  have h3 := processInput_of_no_override t (recordSuccess s) rfl
  exact ⟨h3.2.1, h3.2.2⟩

/-- Witness for claim C3 at a concrete state: override MINIMAL set from the
initial state, then a success, then the input "hi". -/
theorem recordSuccess_then_fresh_witness :
    (recordSuccess (handleManualOverride .MINIMAL initialState)).manualOverride = none ∧
    (recordSuccess (handleManualOverride .MINIMAL initialState)).userProfile.successfulActions
      = (handleManualOverride .MINIMAL initialState).userProfile.successfulActions + 1 ∧
    ((processInput "hi" (recordSuccess (handleManualOverride .MINIMAL initialState))).density
        = (assessIntent "hi" (contextFor (recordSuccess (handleManualOverride .MINIMAL initialState)))).density ∧
     (processInput "hi" (recordSuccess (handleManualOverride .MINIMAL initialState))).reasoning
        = (assessIntent "hi" (contextFor (recordSuccess (handleManualOverride .MINIMAL initialState)))).reasoning) := by
  have h := recordSuccess_then_fresh_processInput (handleManualOverride .MINIMAL initialState)
    .MINIMAL rfl
  exact ⟨h.1, h.2.1, h.2.2 "hi"⟩

/-- Claim C4: an input containing any configured reflective keyword is
classified with density EXPANDED, whatever the context. -/
theorem reflective_keyword_forces_expanded (input : String) (context : UIContext)
    (h : matchesAny REFLECTIVE_SIGNALS (normalizeInput input) = true) :
    (assessIntent input context).density = .EXPANDED := by
  simp [assessIntent, detectIntentType, h, resolveDensity]

/-- Witness for claim C4: "Why am I broke" with the initial profile. -/
theorem reflective_keyword_witness :
    (assessIntent "Why am I broke" ⟨.STANDARD, INITIAL_PROFILE, []⟩).density = .EXPANDED :=
  reflective_keyword_forces_expanded "Why am I broke" ⟨.STANDARD, INITIAL_PROFILE, []⟩ (by decide)

/-- Claim C5: an input with an exclamation mark or an urgency keyword, no
reflective keyword, and computed confidence at least the expanded threshold is
classified with density MINIMAL. -/
theorem urgent_confident_resolves_minimal (input : String) (context : UIContext)
    (hu : includes (normalizeInput input) ['!'] = true ∨
          matchesAny URGENCY_HIGH_SIGNALS (normalizeInput input) = true)
    (hr : matchesAny REFLECTIVE_SIGNALS (normalizeInput input) = false)
    (hc : CONFIDENCE_THRESHOLDS.expanded ≤ computeConfidence (normalizeInput input) context) :
    (assessIntent input context).density = .MINIMAL := by
  have hurg : detectUrgency (normalizeInput input) = .HIGH := by
    rcases hu with hu | hu <;> simp [detectUrgency, hu]
  have hty : detectIntentType (normalizeInput input) ≠ "REFLECTIVE" := by
    simp only [detectIntentType, hr, Bool.false_eq_true, if_false]
    split <;> simp
  simp [assessIntent, resolveDensity, hurg, hty, not_lt.mpr hc]

/-- Witness for claim C5: "Delete it now!" with the initial profile. -/
theorem urgent_confident_witness :
    (assessIntent "Delete it now!" ⟨.STANDARD, INITIAL_PROFILE, []⟩).density = .MINIMAL :=
  urgent_confident_resolves_minimal "Delete it now!" ⟨.STANDARD, INITIAL_PROFILE, []⟩
    (Or.inl (by decide)) (by decide)
    (by norm_num +decide [computeConfidence, rmin, rmax, CONFIDENCE_THRESHOLDS, INITIAL_PROFILE])

/-- Claim C1 counterexample: "add show" contains the action keyword "add" and
the analytical keyword "show" and no reflective keyword, yet the detected
intent is ANALYTICAL, not ACTION — the engine checks analytical signals before
any action default and has no action keyword set at all. -/
theorem intent_priority_counterexample :
    matchesAny ACTION_SIGNALS (normalizeInput "add show") = true ∧
    matchesAny ANALYTICAL_SIGNALS (normalizeInput "add show") = true ∧
    matchesAny REFLECTIVE_SIGNALS (normalizeInput "add show") = false ∧
    (assessIntent "add show" ⟨.STANDARD, INITIAL_PROFILE, []⟩).type = "ANALYTICAL" ∧
    (assessIntent "add show" ⟨.STANDARD, INITIAL_PROFILE, []⟩).type ≠ "ACTION" := by
  refine ⟨by decide, by decide, by decide, ?_, ?_⟩ <;>
    simp +decide [assessIntent, detectIntentType]

/-- Claim C1 (amended): intent detection checks the reflective set first and
the analytical set second over the normalized input, defaulting to ACTION;
hence any input with an analytical keyword and no reflective keyword — even
one also containing an action verb — is classified ANALYTICAL. -/
theorem analytical_wins_without_reflective (input : String) (context : UIContext)
    (hr : matchesAny REFLECTIVE_SIGNALS (normalizeInput input) = false)
    (ha : matchesAny ANALYTICAL_SIGNALS (normalizeInput input) = true) :
    (assessIntent input context).type = "ANALYTICAL" := by
  simp [assessIntent, detectIntentType, hr, ha]

/-- Witness for the amended claim C1 at "add show". -/
theorem analytical_wins_witness :
    (assessIntent "add show" ⟨.EXPANDED, INITIAL_PROFILE, []⟩).type = "ANALYTICAL" :=
  analytical_wins_without_reflective "add show" ⟨.EXPANDED, INITIAL_PROFILE, []⟩
    (by decide) (by decide)

/-- If an override is active and the engine's new intent category matches the
previous result's category, `processInput` keeps the override. -/
lemma processInput_of_override_kept (t : String) (s : TrackerState) (d : UIDensity)
    (r : IntentResult) (hmo : s.manualOverride = some d) (hli : s.lastIntent = some r)
    (hty : (assessIntent t (contextFor s)).type = r.type) :
    (processInput t s).manualOverride = some d ∧
    (processInput t s).density = d ∧
    (processInput t s).reasoning = .manualOverrideActive d := by
  rcases s with ⟨den, re, li, p, mo⟩
  subst hmo
  subst hli
  simp [processInput, hty]

/-- Re-running the engine after one `processInput` with the same text gives
the identical result: the only profile fields the engine reads are unchanged. -/
lemma assessIntent_after_processInput (t u : String) (s : TrackerState) :
    assessIntent u (contextFor (processInput t s)) = assessIntent u (contextFor s) := by
  apply assessIntent_profile_congr <;>
    simp [contextFor, bumpProfile, processInput_userProfile]

/-- Claim C6: two consecutive `processInput` calls with identical text (the
profile changing only in its interaction counter in between) produce the same
density and the same reasoning. -/
theorem processInput_same_text_stable (s : TrackerState) (t : String) :
    (processInput t (processInput t s)).density = (processInput t s).density ∧
    (processInput t (processInput t s)).reasoning = (processInput t s).reasoning := by
  have hres := assessIntent_after_processInput t t s
  have hli := processInput_lastIntent t s
  cases hmo : (processInput t s).manualOverride with
  | none =>
      obtain ⟨h1, h2, h3⟩ := processInput_of_no_override t (processInput t s) hmo
      have hd1 := processInput_density_getD t s
      have hr1 := processInput_reasoning_getD t s
      rw [hmo] at hd1 hr1
      simp at hd1 hr1
      exact ⟨by rw [h2, hres, hd1], by rw [h3, hres, hr1]⟩
  | some d =>
      have hd1 := processInput_density_getD t s
      have hr1 := processInput_reasoning_getD t s
      rw [hmo] at hd1 hr1
      simp at hd1 hr1
      obtain ⟨k1, k2, k3⟩ := processInput_of_override_kept t (processInput t s) d
        (assessIntent t (contextFor s)) hmo hli (by rw [hres])
      exact ⟨by rw [k2, hd1], by rw [k3, hr1]⟩

/-- Claim C7 counterexample: with a hesitant profile (seven backspaces), the
empty input still classifies as ACTION and NORMAL, but its confidence is 0.9,
not the claimed 1.0, because the hesitation penalty applies to any profile. -/
theorem empty_text_confidence_counterexample :
    (assessIntent "" ⟨.STANDARD, ⟨0, 0, 7, false⟩, []⟩).type = "ACTION" ∧
    (assessIntent "" ⟨.STANDARD, ⟨0, 0, 7, false⟩, []⟩).urgency = .NORMAL ∧
    (assessIntent "" ⟨.STANDARD, ⟨0, 0, 7, false⟩, []⟩).confidence = 0.9 ∧
    (assessIntent "" ⟨.STANDARD, ⟨0, 0, 7, false⟩, []⟩).confidence ≠ 1 := by
  norm_num +decide [assessIntent, detectIntentType, detectUrgency, computeConfidence,
    resolveDensity, rmin, rmax, CONFIDENCE_THRESHOLDS]

/-- Claim C7 (amended): the classifier is a total function; text matching no
signal set and containing no exclamation mark yields intent ACTION and urgency
NORMAL for every profile, with confidence 1.0 whenever the profile's hesitation
counter is at most 5 and its intent-changed flag is clear; for arbitrary
profiles the confidence stays at least 0.8 and the density resolves through
rule 4, the confident-action MINIMAL branch. -/
theorem unrecognized_text_defaults (input : String) (context : UIContext)
    (hu : matchesAny UNCERTAINTY_SIGNALS (normalizeInput input) = false)
    (hr : matchesAny REFLECTIVE_SIGNALS (normalizeInput input) = false)
    (ha : matchesAny ANALYTICAL_SIGNALS (normalizeInput input) = false)
    (hg : matchesAny URGENCY_HIGH_SIGNALS (normalizeInput input) = false)
    (hb : includes (normalizeInput input) ['!'] = false) :
    (assessIntent input context).type = "ACTION" ∧
    (assessIntent input context).urgency = .NORMAL ∧
    0.8 ≤ (assessIntent input context).confidence ∧
    (assessIntent input context).density = .MINIMAL ∧
    (assessIntent input context).reasoning
      = .confidentAction (assessIntent input context).confidence ∧
    (context.userProfile.backspaceCount ≤ 5 → context.userProfile.lastIntentChanged = false →
      (assessIntent input context).confidence = 1) := by
  have hconf : (assessIntent input context).confidence
      = computeConfidence (normalizeInput input) context := rfl
  have hge : (0.8 : ℚ) ≤ computeConfidence (normalizeInput input) context := by
    by_cases h5 : 5 < context.userProfile.backspaceCount <;>
      cases hfl : context.userProfile.lastIntentChanged <;>
      cases hdg : (normalizeInput input).any Char.isDigit <;>
      norm_num [computeConfidence, hu, hr, h5, hfl, hdg, rmin, rmax]
  have htype : detectIntentType (normalizeInput input) = "ACTION" := by
    simp [detectIntentType, hr, ha]
  have hurg : detectUrgency (normalizeInput input) = .NORMAL := by
    simp [detectUrgency, hg, hb]
  have h75 : (0.75 : ℚ) ≤ computeConfidence (normalizeInput input) context :=
    le_trans (by norm_num) hge
  refine ⟨?_, ?_, ?_, ?_, ?_, ?_⟩
  · simp [assessIntent, htype]
  · simp [assessIntent, hurg]
  · rw [hconf]; exact hge
  · simp only [assessIntent, htype, hurg]
    simp [resolveDensity, CONFIDENCE_THRESHOLDS, not_lt.mpr h75, hge]
  · rw [hconf]
    simp only [assessIntent, htype, hurg]
    simp [resolveDensity, CONFIDENCE_THRESHOLDS, not_lt.mpr h75, hge]
  · intro h5 hfl
    rw [hconf]
    have h5' : ¬ 5 < context.userProfile.backspaceCount := not_lt.mpr h5
    cases hdg : (normalizeInput input).any Char.isDigit <;>
      norm_num [computeConfidence, hu, hr, h5', hfl, hdg, rmin, rmax]

/-- Witness for the amended claim C7: the empty input with the initial
profile is ACTION, NORMAL, confidence exactly 1, density MINIMAL. -/
theorem unrecognized_text_witness :
    (assessIntent "" ⟨.STANDARD, INITIAL_PROFILE, []⟩).type = "ACTION" ∧
    (assessIntent "" ⟨.STANDARD, INITIAL_PROFILE, []⟩).urgency = .NORMAL ∧
    (assessIntent "" ⟨.STANDARD, INITIAL_PROFILE, []⟩).density = .MINIMAL ∧
    (assessIntent "" ⟨.STANDARD, INITIAL_PROFILE, []⟩).confidence = 1 := by
  have h := unrecognized_text_defaults "" ⟨.STANDARD, INITIAL_PROFILE, []⟩
    (by decide) (by decide) (by decide) (by decide) (by decide)
  exact ⟨h.1, h.2.1, h.2.2.2.1, h.2.2.2.2.2 (by decide) (by decide)⟩
